import Mathlib

/-!
Shallow embedding of the Chat Session Controller of `ask-dora/dora_insight`
(`src/frontend/src/app/routes/Chat.tsx`): the message timeline, the optimistic
send/rollback controller (`handleSendPrompt`), the typing animator (the
`messageToAnimate` effect with its `setInterval` loop and cleanup), and the
session loader (`loadSessionMessages` plus the load `useEffect`).

Conventions of the embedding:
* JS strings are Lean `String`s; character-by-character indexing in the
  animator is modelled on `String.data : List Char`.
* JS `null`/`undefined` become `Option`; JS truthiness of a number
  (`currentSessionId`, `typingMessageId`) is `optTruthy` (false for `null`
  and for `0`), of a string (`currentUserUid`, `m.sender`, error details)
  is falsy exactly on `""` (`strOr`, `strTruthy`).
* React state is a record `ChatState`; each `useEffect` body, each `setState`
  sequence of an async handler, and the effect cleanup become pure functions
  on `ChatState`.  An `await` suspension point splits a handler in two: a
  `...Begin` function (the synchronous prefix, returning the pending
  operation it started, if any) and a `...Complete`/`resolve...` function
  applied to whatever state holds when the network result arrives — exactly
  the cooperative-scheduling model of the source, where the continuation of
  a `fetch` closes over its arguments but reads/writes the live state.
* The assistant sender is the literal `"llm"`, as in the source.
-/

/-- Type `Message` of Chat.tsx: `{ id, sender, content, timestamp }`. -/
structure Message where
  id : Nat
  sender : String
  content : String
  timestamp : String
deriving DecidableEq, Repr

/-- A raw message of a backend response, before the defensive defaulting
`m.sender || 'unknown'` / `m.content || ''` / `m.timestamp || now`:
fields other than `id` may be absent. -/
structure RawMessage where
  id : Nat
  sender : Option String
  content : Option String
  timestamp : Option String
deriving DecidableEq, Repr

/-- Type `ChatSessionResponse` of Chat.tsx: `{ id, created_at, title?, messages }`
(metadata other than `id` and `messages` is not read by the controller). -/
structure ChatSessionResponse where
  id : Nat
  messages : List RawMessage
deriving DecidableEq, Repr

/-- JS `a || b` for strings: `b` when `a` is empty (falsy), else `a`. -/
def strOr (a b : String) : String :=
  if a = "" then b else a

/-- JS truthiness of a nullable string (`null`/`undefined` and `""` are falsy). -/
def strTruthy : Option String → Bool
  | none => false
  | some s => s ≠ ""

/-- JS truthiness of a nullable number (`null`/`undefined` and `0` are falsy). -/
def optTruthy : Option Nat → Bool
  | none => false
  | some n => n ≠ 0

/-- JS `o || d` for an optional string field of a backend message. -/
def fieldOr (o : Option String) (d : String) : String :=
  match o with
  | none => d
  | some s => strOr s d

/-- The defensive mapping applied to every backend message in both
`handleSendPrompt` and `loadSessionMessages`:
`{ id: Number(m.id), sender: m.sender || 'unknown', content: m.content || '',
   timestamp: m.timestamp || new Date().toISOString() }`.
`now` stands for `new Date().toISOString()` at the moment of the mapping. -/
def sanitizeMessage (now : String) (m : RawMessage) : Message :=
  { id := m.id
    sender := fieldOr m.sender "unknown"
    content := fieldOr m.content ""
    timestamp := fieldOr m.timestamp now }

/-- The React state of the `Chat` component (plus `currentSessionId`, which the
component receives as a prop and writes through `setCurrentSessionId`, and the
sidebar-refresh counter it writes through `setRefreshSessionsTrigger`). -/
structure ChatState where
  messages : List Message
  isLoading : Bool
  error : Option String
  currentUserUid : Option String
  currentSessionId : Option Nat
  messageToAnimate : Option Message
  typingMessageId : Option Nat
  isNewMessageAnimating : Bool
  refreshSessionsTrigger : Nat
deriving DecidableEq, Repr

/-- Timeline `patchContent`: the `setMessages(prev => prev.map(msg =>
msg.id === id ? { ...msg, content } : msg))` pattern used by every animator
tick, the completion patch and the cleanup patch. -/
def patchContent (msgs : List Message) (i : Nat) (c : String) : List Message :=
  msgs.map fun m => if m.id = i then { m with content := c } else m

/-- The contents passed to `patchContent` by the animation interval of the
typing effect, in tick order: while `charIndex < full.length` the tick
appends `full[charIndex]` to `currentText` and patches with the result;
the terminal tick performs the final "ensure final content" patch with the
complete content and stops the interval. -/
def tickPatches (full currentText : List Char) (charIndex : Nat) :
    List (List Char) :=
  if h : charIndex < full.length then
    (currentText ++ [full.get ⟨charIndex, h⟩]) ::
      tickPatches full (currentText ++ [full.get ⟨charIndex, h⟩]) (charIndex + 1)
  else
    [full]
termination_by full.length - charIndex

/-- The successive content states of the animated message that the Timeline
exhibits during one full animation run: the cleared content `""` installed by
`handleSendPrompt` before the handoff, followed by every patched content of
the interval (final patch included). -/
def visibleStates (full : List Char) : List (List Char) :=
  [] :: tickPatches full [] 0

/-- The prefixes of `full` of lengths `0` through `full.length`, in order:
the contents the spec says the animator must exhibit. -/
def prefixStates (full : List Char) : List (List Char) :=
  (List.range (full.length + 1)).map fun k => full.take k

/-! ## Typing Animator, as state transformations -/

/-- Running the whole animation interval over a Timeline: each tick (and the
final "ensure final content" step) is a `patchContent` on the animated
message's id with that tick's content. -/
def runAnimation (msgs : List Message) (t : Message) : List Message :=
  (tickPatches t.content.data [] 0).foldl
    (fun acc c => patchContent acc t.id (String.mk c)) msgs

/-- The guard block of the typing-animation `useEffect`: when
`messageToAnimate` is absent or not an `llm` message, clear
`typingMessageId` and — only when `messageToAnimate` is absent while
`isNewMessageAnimating` was set — clear the animating flag; when it is an
`llm` message, publish its id as `typingMessageId` (and the interval starts). -/
def animEffectGuard (st : ChatState) : ChatState :=
  match st.messageToAnimate with
  | none =>
      { st with typingMessageId := none, isNewMessageAnimating := false }
  | some t =>
      if t.sender = "llm" then { st with typingMessageId := some t.id }
      else { st with typingMessageId := none }

/-- Letting the animation interval run to its final tick: the ticks patch the
Timeline (`runAnimation`), the final tick clears the interval and
`typingMessageId` and sets `messageToAnimate` to `null`; the effect then
re-runs and its guard block clears `isNewMessageAnimating`
(`animEffectGuard`).  A state with no `llm` `messageToAnimate` has no
running interval and is unchanged. -/
def completeAnimation (st : ChatState) : ChatState :=
  match st.messageToAnimate with
  | none => st
  | some t =>
      if t.sender = "llm" then
        animEffectGuard
          { st with
              messages := runAnimation st.messages t
              typingMessageId := none
              messageToAnimate := none }
      else st

/-- The cleanup function of the typing-animation `useEffect`, run when the
component unmounts or `messageToAnimate` changes (superseding request or
session switch): `clearInterval`, then — if a `messageToAnimate` was captured —
one `patchContent` with the full final content, then clear `typingMessageId`. -/
def cancelAnimation (st : ChatState) : ChatState :=
  match st.messageToAnimate with
  | none => { st with typingMessageId := none }
  | some t =>
      { st with
          messages := patchContent st.messages t.id t.content
          typingMessageId := none }

/-! ## Session Loader -/

/-- A load started by `loadSessionMessages(sessionId)` and still awaiting its
`fetch`: the continuation closes over `sessionId` only — it captures no
generation and re-reads no selection state before applying its result. -/
structure PendingLoad where
  sessionId : Nat
deriving DecidableEq, Repr

/-- The result of the `fetch` of `loadSessionMessages`. -/
inductive LoadResult where
  /-- Case `response.ok`, body parsed as a `ChatSessionResponse`. -/
  | ok (data : ChatSessionResponse)
  /-- Case `response.status === 404`. -/
  | notFound
  /-- Case `!response.ok` with a status other than 404; `detail` is
  `errData.detail` (possibly empty when absent). -/
  | httpError (detail : String)
  /-- the `fetch` itself rejected (network transport fault); `msg` is
  `err.message`. -/
  | networkError (msg : String)
deriving DecidableEq, Repr

/-- The synchronous prefix of `loadSessionMessages(sessionId)`, up to its
`await fetch`: the unauthenticated early-return, else
`setIsLoading(true); setError(null)` and the request goes out. -/
def loadSessionBegin (st : ChatState) (sessionId : Nat) :
    ChatState × Option PendingLoad :=
  if ¬ strTruthy st.currentUserUid then
    ({ st with
        error := some "User not authenticated. Cannot load session."
        messages := []
        messageToAnimate := none
        isNewMessageAnimating := false }, none)
  else
    ({ st with isLoading := true, error := none }, some ⟨sessionId⟩)

/-- The continuation of `loadSessionMessages` applied when its `fetch`
resolves, with `st` the component state at that moment.  On `ok`, the
fetched messages are installed unconditionally — nothing compares the
captured `p.sessionId` (or any generation) with `st.currentSessionId`.
On 404, Timeline is cleared and the active session reset to `null` with a
scoped error.  On any other failure, the `catch` block sets the error and
clears Timeline and animation state.  `finally` always clears `isLoading`. -/
def resolveLoad (st : ChatState) (p : PendingLoad) (now : String)
    (r : LoadResult) : ChatState :=
  match r with
  | .ok data =>
      { st with
          messages := data.messages.map (sanitizeMessage now)
          messageToAnimate := none
          isNewMessageAnimating := false
          isLoading := false }
  | .notFound =>
      { st with
          error := some ("Session " ++ toString p.sessionId ++ " not found.")
          messages := []
          currentSessionId := none
          isLoading := false }
  | .httpError detail =>
      { st with
          error := some (strOr (strOr detail "Failed to load session messages")
            "An unknown error occurred while loading session.")
          messages := []
          messageToAnimate := none
          isNewMessageAnimating := false
          isLoading := false }
  | .networkError msg =>
      { st with
          error := some (strOr msg "An unknown error occurred while loading session.")
          messages := []
          messageToAnimate := none
          isNewMessageAnimating := false
          isLoading := false }

/-- The session-load `useEffect` body (deps: `currentSessionId`,
`currentUserUid`, `isNewMessageAnimating`): skip entirely while
`isNewMessageAnimating`; start `loadSessionMessages(currentSessionId)` when
both a session id and a user are present; clear the view when
`currentSessionId` is falsy. -/
def loadEffect (st : ChatState) : ChatState × Option PendingLoad :=
  if st.isNewMessageAnimating then (st, none)
  else if optTruthy st.currentSessionId && strTruthy st.currentUserUid then
    loadSessionBegin st (st.currentSessionId.getD 0)
  else if ¬ optTruthy st.currentSessionId then
    ({ st with
        messages := []
        messageToAnimate := none
        isNewMessageAnimating := false
        error := none }, none)
  else (st, none)

/-- The user selecting a session: the externally owned `currentSessionId`
prop changes, and the session-load effect re-runs against the new value. -/
def selectSession (st : ChatState) (sid : Option Nat) :
    ChatState × Option PendingLoad :=
  loadEffect { st with currentSessionId := sid }

/-! ## Send Controller -/

/-- A send started by `handleSendPrompt` and still awaiting its `fetch`;
its continuation closes over the optimistic message's temporary id. -/
structure PendingSend where
  tempId : Nat
deriving DecidableEq, Repr

/-- The result of the `POST /chat/` of `handleSendPrompt`. -/
inductive SendResult where
  /-- Case `response.ok`, body parsed as a `ChatSessionResponse`. -/
  | ok (data : ChatSessionResponse)
  /-- Case `!response.ok`; `detail` is `errData.detail` (possibly empty). -/
  | httpError (detail : String)
  /-- the `fetch` itself rejected; `msg` is `err.message`. -/
  | networkError (msg : String)
deriving DecidableEq, Repr

/-- The synchronous prefix of `handleSendPrompt(promptText)`, up to its
`await fetch`: the precondition guard
`!promptText.trim() || isLoading || typingMessageId || !currentUserUid`
(a no-op, with an error surfaced when unauthenticated), else
`setIsLoading(true); setError(null)`, append of the optimistic user message
(temporary id `tempId = Date.now()`, timestamp `now`), and the request goes
out.  Returns the pending send when a request was issued. -/
def sendBegin (st : ChatState) (promptText : String) (tempId : Nat)
    (now : String) : ChatState × Option PendingSend :=
  if promptText.trim = "" || st.isLoading || optTruthy st.typingMessageId
      || ¬ strTruthy st.currentUserUid then
    if ¬ strTruthy st.currentUserUid then
      ({ st with
          error := some "User not authenticated. Please login."
          isLoading := false }, none)
    else (st, none)
  else
    ({ st with
        isLoading := true
        error := none
        messages := st.messages ++
          [{ id := tempId, sender := "user", content := promptText,
             timestamp := now }] }, some ⟨tempId⟩)

/-- The success branch of `handleSendPrompt` once `response.json()` parsed:
adopt `data.id` as the active session (bumping the sidebar refresh trigger
when this created a new session), sanitize the backend messages, and either
install them with the last `llm` message's content cleared and hand that
message to the animator (`messageToAnimate`, `isNewMessageAnimating`), or
install them verbatim. -/
def sendSuccess (st : ChatState) (now : String) (data : ChatSessionResponse) :
    ChatState :=
  let newSessionCreated := ¬ optTruthy st.currentSessionId ∧ data.id ≠ 0
  let st := { st with
    currentSessionId := some data.id
    refreshSessionsTrigger :=
      if newSessionCreated then st.refreshSessionsTrigger + 1
      else st.refreshSessionsTrigger }
  let backendMessages := data.messages.map (sanitizeMessage now)
  match backendMessages.getLast? with
  | some lastMessageFromServer =>
      if lastMessageFromServer.sender = "llm" then
        { st with
            messages := backendMessages.map fun msg =>
              if msg.id = lastMessageFromServer.id then { msg with content := "" }
              else msg
            isNewMessageAnimating := true
            messageToAnimate := some lastMessageFromServer }
      else
        { st with
            messages := backendMessages
            isNewMessageAnimating := false }
  | none =>
      { st with messages := [], isNewMessageAnimating := false }

/-- The continuation of `handleSendPrompt` applied when its `fetch` resolves,
with `st` the component state at that moment.  `!response.ok` filters the
optimistic message out and throws; the `catch` block sets the error and
filters the optimistic message out (again); a transport fault goes straight
to `catch`.  `finally` always clears `isLoading`. -/
def sendComplete (st : ChatState) (p : PendingSend) (now : String)
    (r : SendResult) : ChatState :=
  match r with
  | .ok data => { sendSuccess st now data with isLoading := false }
  | .httpError detail =>
      { st with
          messages := (st.messages.filter fun m => m.id ≠ p.tempId).filter
            fun m => m.id ≠ p.tempId
          error := some (strOr (strOr detail "Failed to send message")
            "An unknown error occurred.")
          isLoading := false }
  | .networkError msg =>
      { st with
          messages := st.messages.filter fun m => m.id ≠ p.tempId
          error := some (strOr msg "An unknown error occurred.")
          isLoading := false }

/-! ## Concrete states used to instantiate the theorems -/

/-- A fresh component state: signed-in user, new/unsaved chat. -/
def st0 : ChatState :=
  { messages := []
    isLoading := false
    error := none
    currentUserUid := some "uid-1"
    currentSessionId := none
    messageToAnimate := none
    typingMessageId := none
    isNewMessageAnimating := false
    refreshSessionsTrigger := 0 }

/-- A well-formed backend message of session 3. -/
def rawS3 : RawMessage :=
  { id := 301, sender := some "user",
    content := some "hello from session three", timestamp := some "t1" }

/-- The backend record of session 3. -/
def dataS3 : ChatSessionResponse := { id := 3, messages := [rawS3] }

/-- A confirmed user message already in the Timeline. -/
def mUser : Message := { id := 1, sender := "user", content := "hi", timestamp := "t1" }

/-- A state with one confirmed message and a load in flight for session 5. -/
def stPrior : ChatState :=
  { st0 with messages := [mUser], isLoading := true, currentSessionId := some 5 }

/-- The assistant message being revealed in the running examples. -/
def mLlmFull : Message :=
  { id := 10, sender := "llm", content := "hello", timestamp := "t2" }

/-- A state mid-animation: the reveal of `mLlmFull` has reached length 2. -/
def stMid : ChatState :=
  { st0 with
      messages := [mUser, { mLlmFull with content := "he" }]
      currentSessionId := some 5
      messageToAnimate := some mLlmFull
      typingMessageId := some 10
      isNewMessageAnimating := true }

/-- A backend response whose last message is an assistant (`llm`) message. -/
def dataLlm : ChatSessionResponse :=
  { id := 5
    messages :=
      [ { id := 20, sender := some "user", content := some "hi", timestamp := some "t1" },
        { id := 21, sender := some "llm", content := some "hey", timestamp := some "t2" } ] }

/-- A state busy with an outstanding send. -/
def stBusy : ChatState := { st0 with isLoading := true, currentSessionId := some 5 }

/-- A backend message with every optional field missing. -/
def rawBare : RawMessage :=
  { id := 7, sender := none, content := none, timestamp := none }

/-! ## Lemmas about the animator's patch sequence -/

theorem tickPatches_take (full : List Char) :
    ∀ n i, full.length - i = n →
      tickPatches full (full.take i) i =
        ((List.range n).map fun k => full.take (i + 1 + k)) ++ [full] := by
  intro n
  induction n with
  | zero =>
      intro i hi
      rw [tickPatches]
      have h : ¬ i < full.length := by omega
      simp [h]
  | succ n ih =>
      intro i hi
      have h : i < full.length := by omega
      rw [tickPatches]
      simp only [h, dif_pos]
      have htake : full.take i ++ [full.get ⟨i, h⟩] = full.take (i + 1) := by
        rw [List.take_succ, List.getElem?_eq_getElem h]
        simp [List.get_eq_getElem]
      rw [htake, ih (i + 1) (by omega)]
      rw [List.range_succ_eq_map]
      simp only [List.map_cons, List.map_map, Nat.add_zero]
      rw [List.cons_append]
      congr 2
      apply List.map_congr_left
      intro k _
      simp only [Function.comp]
      congr 1
      omega

theorem tickPatches_from_zero (full : List Char) :
    tickPatches full [] 0 =
      ((List.range full.length).map fun k => full.take (1 + k)) ++ [full] := by
  have h := tickPatches_take full full.length 0 (by omega)
  simpa using h

theorem visibleStates_eq_prefixStates (full : List Char) :
    visibleStates full = prefixStates full ++ [full] := by
  rw [visibleStates, tickPatches_from_zero, prefixStates]
  rw [List.range_succ_eq_map]
  simp only [List.map_cons, List.take_zero, List.map_map, List.cons_append]
  congr 2
  apply List.map_congr_left
  intro k _
  simp only [Function.comp]
  congr 1
  omega

theorem patchContent_patchContent (msgs : List Message) (i : Nat) (a b : String) :
    patchContent (patchContent msgs i a) i b = patchContent msgs i b := by
  have hfun :
      ((fun m : Message => if m.id = i then { m with content := b } else m) ∘
        fun m : Message => if m.id = i then { m with content := a } else m) =
      fun m : Message => if m.id = i then { m with content := b } else m := by
    funext m
    by_cases h : m.id = i <;> simp [h]
  rw [patchContent, patchContent, patchContent, List.map_map, hfun]

theorem foldl_patch_concat (i : Nat) (ps : List (List Char)) :
    ∀ (msgs : List Message) (c : List Char),
      (ps ++ [c]).foldl (fun acc d => patchContent acc i (String.mk d)) msgs
        = patchContent msgs i (String.mk c) := by
  induction ps with
  | nil => intro msgs c; simp
  | cons p ps ih =>
      intro msgs c
      simp only [List.cons_append, List.foldl_cons]
      rw [ih, patchContent_patchContent]

theorem runAnimation_eq_patch (msgs : List Message) (t : Message) :
    runAnimation msgs t = patchContent msgs t.id t.content := by
  rw [runAnimation, tickPatches_from_zero, foldl_patch_concat]

theorem mem_of_getLast?_eq (l : List Message) (a : Message)
    (h : l.getLast? = some a) : a ∈ l := by
  obtain ⟨hne, heq⟩ :=
    List.mem_getLast?_eq_getLast (show a ∈ l.getLast? by rw [h]; rfl)
  subst heq
  exact List.getLast_mem hne

theorem patch_restore_of_nodup (bm : List Message) (last : Message)
    (hmem : last ∈ bm) (hnodup : (bm.map Message.id).Nodup) :
    patchContent
      (bm.map fun msg =>
        if msg.id = last.id then { msg with content := "" } else msg)
      last.id last.content = bm := by
  rw [patchContent, List.map_map]
  have hpt : ∀ m ∈ bm,
      ((fun m : Message =>
          if m.id = last.id then { m with content := last.content } else m) ∘
        fun msg : Message =>
          if msg.id = last.id then { msg with content := "" } else msg) m = m := by
    intro m hm
    by_cases h : m.id = last.id
    · have hm_eq : m = last := List.inj_on_of_nodup_map hnodup hm hmem h
      subst hm_eq
      simp [Function.comp]
    · simp [Function.comp, h]
  rw [List.map_congr_left hpt]
  exact List.map_id bm

/-! ## Claim theorems -/

/-- Claim C4 (confirmed): for an assistant message of content length N handed
to the Typing Animator, the contents exhibited by the target message are
exactly the prefixes of lengths 0 through N (N+1 distinct states) in strictly
increasing-length order, followed by the redundant final "ensure final
content" patch; the state after the final patch is the full content. -/
theorem animator_completeness (full : List Char) :
    visibleStates full = prefixStates full ++ [full]
    ∧ (prefixStates full).length = full.length + 1
    ∧ List.Chain' (fun a b : List Char => a.length < b.length) (prefixStates full)
    ∧ (prefixStates full).Nodup
    ∧ (visibleStates full).getLast? = some full := by
  refine ⟨visibleStates_eq_prefixStates full, by simp [prefixStates], ?_, ?_, ?_⟩
  · rw [prefixStates, List.chain'_map, List.chain'_range_succ]
    intro m hm
    simp only [List.length_take]
    omega
  · rw [prefixStates]
    apply List.Nodup.map_on
    · intro x hx y hy hxy
      have hlen := congrArg List.length hxy
      simp only [List.length_take, List.mem_range] at hx hy hlen
      omega
    · exact List.nodup_range _
  · rw [visibleStates_eq_prefixStates]
    exact List.getLast?_concat _

/-- Claim C5 (confirmed): the cleanup of the typing-animation effect — run on
teardown, on a superseding animation request, or on a session switch, at any
revealed length — leaves every Timeline entry carrying the animated message's
id with its full final content, clears `typingMessageId`, and stops the
interval, so no partial string survives and no ghost animation keeps ticking. -/
theorem cancellation_finality (st : ChatState) (t : Message)
    (hmsg : st.messageToAnimate = some t) :
    (∀ m ∈ (cancelAnimation st).messages, m.id = t.id → m.content = t.content)
    ∧ (cancelAnimation st).typingMessageId = none
    ∧ (cancelAnimation st).messages.map Message.id = st.messages.map Message.id := by
  simp only [cancelAnimation, hmsg]
  refine ⟨?_, trivial, ?_⟩
  · intro m hm hid
    rw [patchContent] at hm
    obtain ⟨m0, hm0, hval⟩ := List.mem_map.1 hm
    by_cases h : m0.id = t.id
    · rw [if_pos h] at hval
      rw [← hval]
    · rw [if_neg h] at hval
      rw [← hval] at hid
      exact absurd hid h
  · rw [patchContent, List.map_map]
    apply List.map_congr_left
    intro m _
    by_cases h : m.id = t.id <;> simp [Function.comp, h]

/-- Claim C5 witness: cancelling the reveal of `mLlmFull` at revealed length 2
returns a state with the interval stopped and the Timeline's ids intact; the
full content is restored (first conjunct of the theorem, instantiated). -/
theorem cancellation_finality_witness :
    (cancelAnimation stMid).typingMessageId = none
    ∧ (cancelAnimation stMid).messages.map Message.id
        = stMid.messages.map Message.id :=
  ⟨(cancellation_finality stMid mLlmFull rfl).2.1,
   (cancellation_finality stMid mLlmFull rfl).2.2⟩

/-- Claim C8 (confirmed): a load answered with 404 clears the Timeline, resets
the active session to new/unsaved (`currentSessionId = none`), surfaces the
scoped "Session N not found." error, and completes non-fatally (the `finally`
clears `isLoading`; the handler returns instead of throwing). -/
theorem load_not_found_resets (st : ChatState) (p : PendingLoad) (now : String) :
    (resolveLoad st p now .notFound).messages = []
    ∧ (resolveLoad st p now .notFound).currentSessionId = none
    ∧ (resolveLoad st p now .notFound).error
        = some ("Session " ++ toString p.sessionId ++ " not found.")
    ∧ (resolveLoad st p now .notFound).isLoading = false :=
  ⟨rfl, rfl, rfl, rfl⟩

/-- Claim C9 (confirmed): the defensive mapping applied to every backend
message fills a missing sender with "unknown", missing content with "", and a
missing timestamp with the current time, never failing: every message of the
response is installed (the mapping is total and length-preserving). -/
theorem malformed_response_defaults (now : String) (ms : List RawMessage)
    (m : RawMessage) :
    (ms.map (sanitizeMessage now)).length = ms.length
    ∧ (m.sender = none → (sanitizeMessage now m).sender = "unknown")
    ∧ (m.content = none → (sanitizeMessage now m).content = "")
    ∧ (m.timestamp = none → (sanitizeMessage now m).timestamp = now)
    ∧ (sanitizeMessage now m).id = m.id
    ∧ (m ∈ ms → sanitizeMessage now m ∈ ms.map (sanitizeMessage now)) := by
  refine ⟨List.length_map ms _, ?_, ?_, ?_, rfl, fun hm => List.mem_map_of_mem _ hm⟩
  all_goals intro h; simp [sanitizeMessage, fieldOr, h]

/-- Claim C9 witness: a message with every optional field absent is defaulted
to sender "unknown", empty content and the current timestamp. -/
theorem malformed_response_defaults_witness :
    (sanitizeMessage "T0" rawBare).sender = "unknown"
    ∧ (sanitizeMessage "T0" rawBare).content = ""
    ∧ (sanitizeMessage "T0" rawBare).timestamp = "T0" :=
  ⟨(malformed_response_defaults "T0" [rawBare] rawBare).2.1 rfl,
   (malformed_response_defaults "T0" [rawBare] rawBare).2.2.1 rfl,
   (malformed_response_defaults "T0" [rawBare] rawBare).2.2.2.1 rfl⟩

/-- Claim C2 counterexample: a load failing with a non-404 error
("upstream failure") on a Timeline holding one message does not leave the
Timeline in its prior state — the `catch` block of `loadSessionMessages`
clears it to `[]` even though no reset was requested. -/
theorem load_error_blanks_timeline_cex :
    stPrior.messages = [mUser]
    ∧ (resolveLoad stPrior ⟨5⟩ "now" (.httpError "upstream failure")).messages = []
    ∧ (resolveLoad stPrior ⟨5⟩ "now" (.httpError "upstream failure")).error
        = some "upstream failure"
    ∧ (resolveLoad stPrior ⟨5⟩ "now" (.httpError "upstream failure")).messages
        ≠ stPrior.messages := by
  decide

/-- Claim C2 (corrected): a load failing with an error other than 404
surfaces the error, but always clears the Timeline to empty (discarding the
prior message list) and cancels any pending animation; `isLoading` is cleared.
There is no caller-requested-reset parameter in the code. -/
theorem load_error_clears_timeline (st : ChatState) (p : PendingLoad)
    (now d e : String) :
    (resolveLoad st p now (.httpError d)).messages = []
    ∧ (resolveLoad st p now (.httpError d)).error.isSome = true
    ∧ (resolveLoad st p now (.httpError d)).isLoading = false
    ∧ (resolveLoad st p now (.httpError d)).messageToAnimate = none
    ∧ (resolveLoad st p now (.networkError e)).messages = []
    ∧ (resolveLoad st p now (.networkError e)).error.isSome = true
    ∧ (resolveLoad st p now (.networkError e)).isLoading = false :=
  ⟨rfl, rfl, rfl, rfl, rfl, rfl, rfl⟩

/-- Claim C1 counterexample: from a fresh state, selecting session 3 starts a
load for 3; selecting session 7 while that load is outstanding starts a load
for 7; when the old load for 3 then resolves, its continuation installs
session 3's messages into the Timeline even though session 7 is the selected
session — no captured generation is re-checked and the stale mutation is not
aborted. -/
theorem stale_load_overwrites_new_session :
    (selectSession st0 (some 3)).2 = some ⟨3⟩
    ∧ (selectSession (selectSession st0 (some 3)).1 (some 7)).2 = some ⟨7⟩
    ∧ (selectSession (selectSession st0 (some 3)).1 (some 7)).1.currentSessionId
        = some 7
    ∧ (resolveLoad (selectSession (selectSession st0 (some 3)).1 (some 7)).1
        ⟨3⟩ "now" (.ok dataS3)).currentSessionId = some 7
    ∧ (resolveLoad (selectSession (selectSession st0 (some 3)).1 (some 7)).1
        ⟨3⟩ "now" (.ok dataS3)).messages
        = [{ id := 301, sender := "user", content := "hello from session three",
             timestamp := "t1" }]
    ∧ (resolveLoad (selectSession (selectSession st0 (some 3)).1 (some 7)).1
        ⟨3⟩ "now" (.ok dataS3)).messages
        ≠ (selectSession (selectSession st0 (some 3)).1 (some 7)).1.messages := by
  decide

/-- Claim C1 (corrected): the code has no generation counter — the only
staleness guard is the `isNewMessageAnimating` flag deferring load starts.
A load or send continuation applies its result unconditionally when it
resolves: a successful load installs the fetched messages irrespective of the
currently selected session (which it leaves as it found it), and a successful
send adopts the response's session id outright. -/
theorem load_result_applied_unconditionally (st : ChatState) (p : PendingLoad)
    (q : PendingSend) (now : String) (data : ChatSessionResponse) :
    (resolveLoad st p now (.ok data)).messages
        = data.messages.map (sanitizeMessage now)
    ∧ (resolveLoad st p now (.ok data)).currentSessionId = st.currentSessionId
    ∧ (sendComplete st q now (.ok data)).currentSessionId = some data.id := by
  refine ⟨rfl, rfl, ?_⟩
  simp only [sendComplete, sendSuccess]
  rcases (data.messages.map (sanitizeMessage now)).getLast? with _ | last
  · rfl
  · by_cases h : last.sender = "llm" <;> simp [h]

/-- Claim C6 (confirmed): a failed send (HTTP error or network transport
fault) removes exactly the optimistic message carrying the temporary id from
the Timeline — the prior messages survive unmodified and in order — surfaces
an error, and clears the busy flag. -/
theorem rollback_exactness (st : ChatState) (p : PendingSend)
    (prior : List Message) (opt : Message) (now d e : String)
    (hmsgs : st.messages = prior ++ [opt])
    (hid : opt.id = p.tempId)
    (hfresh : ∀ m ∈ prior, m.id ≠ p.tempId) :
    (sendComplete st p now (.httpError d)).messages = prior
    ∧ (sendComplete st p now (.httpError d)).error.isSome = true
    ∧ (sendComplete st p now (.httpError d)).isLoading = false
    ∧ (sendComplete st p now (.networkError e)).messages = prior
    ∧ (sendComplete st p now (.networkError e)).error.isSome = true
    ∧ (sendComplete st p now (.networkError e)).isLoading = false := by
  have hprior : prior.filter (fun m => m.id ≠ p.tempId) = prior := by
    rw [List.filter_eq_self]
    intro a ha
    simpa using hfresh a ha
  have hfilter : st.messages.filter (fun m => m.id ≠ p.tempId) = prior := by
    rw [hmsgs, List.filter_append, hprior]
    simp [hid]
  refine ⟨?_, rfl, rfl, ?_, rfl, rfl⟩
  · simp only [sendComplete]
    rw [hfilter, hprior]
  · simp only [sendComplete]
    rw [hfilter]

/-- Claim C6 witness: a network fault on a send whose optimistic message got
the temporary id 99 restores exactly the prior one-message Timeline. -/
theorem rollback_exactness_witness :
    (sendComplete { stBusy with messages := [mUser,
        { id := 99, sender := "user", content := "hello", timestamp := "t9" }] }
      ⟨99⟩ "now" (.networkError "fetch failed")).messages = [mUser] :=
  (rollback_exactness { stBusy with messages := [mUser,
      { id := 99, sender := "user", content := "hello", timestamp := "t9" }] }
    ⟨99⟩ [mUser]
    { id := 99, sender := "user", content := "hello", timestamp := "t9" }
    "now" "d" "fetch failed" rfl rfl (by decide)).2.2.2.1

/-- Claim C7 (confirmed): `handleSendPrompt` is a no-op — no state change, no
request issued — when invoked while a send is outstanding (`isLoading`) or an
animation is in progress (`typingMessageId`); and a send that did issue a
request leaves the state busy, so a second call before the first resolves
issues no second request: two rapid calls produce exactly one request. -/
theorem send_mutual_exclusion :
    (∀ (st : ChatState) (pt : String) (t : Nat) (n : String),
        strTruthy st.currentUserUid = true →
        st.isLoading = true ∨ optTruthy st.typingMessageId = true →
        sendBegin st pt t n = (st, none))
    ∧ (∀ (st : ChatState) (pt1 pt2 : String) (t1 t2 : Nat) (n1 n2 : String)
        (p : PendingSend),
        (sendBegin st pt1 t1 n1).2 = some p →
        sendBegin (sendBegin st pt1 t1 n1).1 pt2 t2 n2
          = ((sendBegin st pt1 t1 n1).1, none)) := by
  constructor
  · intro st pt t n huid hbusy
    rcases hbusy with h | h <;>
      simp [sendBegin, h, huid]
  · intro st pt1 pt2 t1 t2 n1 n2 p hp
    rw [sendBegin] at hp
    split at hp
    · split at hp <;> exact Option.noConfusion hp
    · rename_i hguard
      simp only [Bool.or_eq_true, decide_eq_true_eq, not_or, not_not] at hguard
      obtain ⟨⟨⟨h1, h2⟩, h3⟩, huid⟩ := hguard
      simp [sendBegin, h1, h2, h3, huid]

/-- Claim C7 witness: on a busy state with an authenticated user, a send call
changes nothing and issues no request. -/
theorem send_mutual_exclusion_witness :
    sendBegin stBusy "hello" 1 "now" = (stBusy, none) :=
  send_mutual_exclusion.1 stBusy "hello" 1 "now" (by decide) (Or.inl rfl)

/-- Claim C10 (confirmed): while `isNewMessageAnimating` is set the session
load effect returns without starting a load or touching the running animation,
even though the selected session id may have changed; once the animation runs
to completion the flag is cleared and the re-run load effect starts the load
for the currently selected session id. -/
theorem animation_defers_load (st : ChatState) (t : Message) (sid : Nat)
    (hanim : st.isNewMessageAnimating = true)
    (hmsg : st.messageToAnimate = some t)
    (hllm : t.sender = "llm")
    (hsid : st.currentSessionId = some sid)
    (hsid0 : sid ≠ 0)
    (huid : strTruthy st.currentUserUid = true) :
    loadEffect st = (st, none)
    ∧ (completeAnimation st).isNewMessageAnimating = false
    ∧ (completeAnimation st).currentSessionId = st.currentSessionId
    ∧ (completeAnimation st).messageToAnimate = none
    ∧ (loadEffect (completeAnimation st)).2 = some ⟨sid⟩ := by
  have hload : loadEffect st = (st, none) := by
    simp [loadEffect, hanim]
  have hcomp :
      completeAnimation st = animEffectGuard
        { st with
            messages := runAnimation st.messages t
            typingMessageId := none
            messageToAnimate := none } := by
    simp [completeAnimation, hmsg, hllm]
  refine ⟨hload, ?_, ?_, ?_, ?_⟩
  · rw [hcomp]; rfl
  · rw [hcomp]; rfl
  · rw [hcomp]; rfl
  · rw [hcomp]
    simp [loadEffect, animEffectGuard, loadSessionBegin, hsid, hsid0, huid,
      optTruthy]

/-- Claim C10 witness: in the concrete mid-animation state `stMid` (session 5
selected) the load effect is skipped, and after the animation completes the
effect starts the load for session 5. -/
theorem animation_defers_load_witness :
    loadEffect stMid = (stMid, none)
    ∧ (loadEffect (completeAnimation stMid)).2 = some ⟨5⟩ :=
  ⟨(animation_defers_load stMid mLlmFull 5 rfl rfl rfl rfl (by decide) (by decide)).1,
   (animation_defers_load stMid mLlmFull 5 rfl rfl rfl rfl (by decide)
      (by decide)).2.2.2.2⟩

/-- Claim C3 (confirmed): a successful send installs the server's full
(sanitized) message list: when its last message is an assistant (`llm`)
message it is installed with that message's content cleared and handed to the
animator, and once the triggered animation has run to completion the Timeline
equals the server list exactly; otherwise the list is installed verbatim.
Holds for any optimistic content previously in the Timeline, under the data
model's invariant that ids within the list are unique, and provided no other
animation was already in progress when the response arrived (guaranteed by
the controller's busy/typing guard). -/
theorem send_reconciliation (st : ChatState) (p : PendingSend) (now : String)
    (data : ChatSessionResponse)
    (hnoanim : st.messageToAnimate = none)
    (hnodup : ((data.messages.map (sanitizeMessage now)).map Message.id).Nodup) :
    (completeAnimation (sendComplete st p now (.ok data))).messages
        = data.messages.map (sanitizeMessage now)
    ∧ (∀ last, (data.messages.map (sanitizeMessage now)).getLast? = some last →
        last.sender = "llm" →
          (sendComplete st p now (.ok data)).messages
              = (data.messages.map (sanitizeMessage now)).map
                  (fun msg =>
                    if msg.id = last.id then { msg with content := "" } else msg)
          ∧ (sendComplete st p now (.ok data)).messageToAnimate = some last)
    ∧ (∀ last, (data.messages.map (sanitizeMessage now)).getLast? = some last →
        last.sender ≠ "llm" →
          (sendComplete st p now (.ok data)).messages
              = data.messages.map (sanitizeMessage now)) := by
  rcases hl : (data.messages.map (sanitizeMessage now)).getLast? with _ | last
  · have hempty : data.messages.map (sanitizeMessage now) = [] := by
      rwa [List.getLast?_eq_none_iff] at hl
    refine ⟨?_, ?_, ?_⟩
    · simp [sendComplete, sendSuccess, hl, completeAnimation, hnoanim, hempty]
    · intro last hl' _
      exact Option.noConfusion hl'
    · intro last hl' _
      exact Option.noConfusion hl'
  · by_cases hs : last.sender = "llm"
    · have hmem : last ∈ data.messages.map (sanitizeMessage now) :=
        mem_of_getLast?_eq _ _ hl
      have hinstall :
          (sendComplete st p now (.ok data)).messages
            = (data.messages.map (sanitizeMessage now)).map
                (fun msg =>
                  if msg.id = last.id then { msg with content := "" } else msg)
          ∧ (sendComplete st p now (.ok data)).messageToAnimate = some last := by
        constructor <;> simp [sendComplete, sendSuccess, hl, hs]
      refine ⟨?_, ?_, ?_⟩
      · simp only [completeAnimation, hinstall.2, hs, animEffectGuard, if_true]
        rw [hinstall.1, runAnimation_eq_patch]
        exact patch_restore_of_nodup _ last hmem hnodup
      · intro last' hl' hs'
        obtain rfl : last = last' := Option.some.inj hl'
        exact hinstall
      · intro last' hl' hs'
        obtain rfl : last = last' := Option.some.inj hl'
        exact absurd hs hs'
    · have hinstall :
          (sendComplete st p now (.ok data)).messages
            = data.messages.map (sanitizeMessage now)
          ∧ (sendComplete st p now (.ok data)).messageToAnimate
            = st.messageToAnimate := by
        constructor <;> simp [sendComplete, sendSuccess, hl, hs]
      refine ⟨?_, ?_, ?_⟩
      · simp only [completeAnimation, hinstall.2, hnoanim]
        exact hinstall.1
      · intro last' hl' hs'
        obtain rfl : last = last' := Option.some.inj hl'
        exact absurd hs' hs
      · intro last' hl' hs'
        exact hinstall.1

/-- Claim C3 witness: sending from the fresh state and receiving `dataLlm`
(a user message followed by an assistant reply "hey") leaves, after the
typing animation completes, a Timeline exactly equal to the server's
sanitized message list. -/
theorem send_reconciliation_witness :
    (completeAnimation (sendComplete st0 ⟨99⟩ "now" (.ok dataLlm))).messages
        = dataLlm.messages.map (sanitizeMessage "now") :=
  (send_reconciliation st0 ⟨99⟩ "now" dataLlm rfl (by decide)).1
